import Mathlib

/-!
Shallow embedding of `src/automation/cli.py` (a small system-status CLI).

Floating-point values (uptime seconds, byte counts, percentages) are
modelled as rationals `ℚ`; the I/O probes (`/proc/uptime`, `/proc/meminfo`,
`shutil.disk_usage`, hostname and user lookups) are modelled by passing
their results (for meminfo, the parsed dictionary) as explicit arguments
to the functions that consume them.  A command that prints and exits is
modelled by the list of lines it prints together with its exit code.
-/

namespace Cli

/-- Python `f"{q:.1f}"` / `f"{q:.0f}"` rounding: round half to even.
Mirrors CPython float formatting for the nonnegative values this
program formats. -/
def round_half_even (q : ℚ) : ℤ :=
  let f := ⌊q⌋
  let r := q - f
  if r < 1/2 then f
  else if 1/2 < r then f + 1
  else if f % 2 = 0 then f else f + 1

/-- `f"{q:.1f}"` for nonnegative `q`: one decimal digit. -/
def fmt1 (q : ℚ) : String :=
  let k := round_half_even (10 * q)
  toString (k / 10) ++ "." ++ toString (k % 10)

/-- `f"{q:.0f}"` for nonnegative `q`: rounded to the nearest integer. -/
def fmt0 (q : ℚ) : String :=
  toString (round_half_even q)

/-- `LABEL_WIDTH = 10` (cli.py line 17). -/
def LABEL_WIDTH : Nat := 10

/-- Python `f"{s:<w}"`: left-justify by padding with spaces to minimum
width `w`; longer strings are left unchanged (no truncation). -/
def ljust (w : Nat) (s : String) : String :=
  s ++ String.mk (List.replicate (w - s.length) ' ')

/-- `fmt_field` (cli.py lines 20-22):
`return f"  {label:<{LABEL_WIDTH}} {value}"`. -/
def fmt_field (label value : String) : String :=
  "  " ++ ljust LABEL_WIDTH label ++ " " ++ value

/-- The loop of `format_bytes` (cli.py lines 27-31): walk the unit list,
dividing by 1024 until the value drops below 1024; once the list is
exhausted the unit is `PiB`. -/
def format_bytes_go : ℚ → List String → String
  | n, [] => fmt1 n ++ " PiB"
  | n, unit :: units =>
    if n < 1024 then fmt1 n ++ " " ++ unit
    else format_bytes_go (n / 1024) units

/-- `format_bytes` (cli.py lines 25-31). -/
def format_bytes (n : ℚ) : String :=
  format_bytes_go n ["B", "KiB", "MiB", "GiB", "TiB"]

/-- Python `f"{n:02d}"`: pad the decimal representation with zeros to a
minimum width of 2. -/
def pad2 (n : ℤ) : String :=
  let s := toString n
  if s.length < 2 then "0" ++ s else s

/-- The arithmetic of `_format_uptime` (cli.py lines 45-48):
`days = int(seconds // 86400)`, `rem = int(seconds % 86400)`,
`h, rem = divmod(rem, 3600)`, `m, s = divmod(rem, 60)`.
Python float `//`/`%` floor toward the divisor's sign, and `int` of the
nonnegative remainder truncates, i.e. floors; Python integer `divmod`
is floor division, `Int.fdiv`/`Int.fmod`. -/
def uptime_components (seconds : ℚ) : ℤ × ℤ × ℤ × ℤ :=
  let days : ℤ := ⌊seconds / 86400⌋
  let rem : ℤ := ⌊seconds - 86400 * (days : ℚ)⌋
  let h : ℤ := rem.fdiv 3600
  let rem2 : ℤ := rem.fmod 3600
  let m : ℤ := rem2.fdiv 60
  let s : ℤ := rem2.fmod 60
  (days, h, m, s)

/-- `_format_uptime` (cli.py lines 44-51); `if days:` tests `days ≠ 0`. -/
def _format_uptime (seconds : ℚ) : String :=
  match uptime_components seconds with
  | (days, h, m, s) =>
    if days ≠ 0 then
      toString days ++ " day(s), " ++ pad2 h ++ ":" ++ pad2 m ++ ":" ++ pad2 s
    else
      pad2 h ++ ":" ++ pad2 m ++ ":" ++ pad2 s

/-- `_get_disk_usage` (cli.py lines 54-58), parametrized by the
`shutil.disk_usage("/")` readings `used` and `total` (byte counts).
`pct = 100 * usage.used / usage.total if usage.total else 0.0`. -/
def _get_disk_usage (used total : ℕ) : ℚ × String :=
  let pct : ℚ := if total ≠ 0 then 100 * (used : ℚ) / total else 0
  (pct, format_bytes used ++ " used / " ++ format_bytes total ++
    " total (" ++ fmt0 pct ++ "%)")

/-- `total = lines.get("MemTotal", 0)` (cli.py line 64), where `lines` is
the parsed `/proc/meminfo` dictionary with values already scaled to
bytes (the `* 1024` of line 63), modelled as an association list. -/
def totalOf (lines : List (String × ℕ)) : ℕ :=
  (lines.lookup "MemTotal").getD 0

/-- `available = lines.get("MemAvailable", lines.get("MemFree", 0))`
(cli.py line 65). -/
def availOf (lines : List (String × ℕ)) : ℕ :=
  (lines.lookup "MemAvailable").getD ((lines.lookup "MemFree").getD 0)

/-- `_get_memory_usage` (cli.py lines 61-69), parametrized by the parsed
`/proc/meminfo` dictionary (values in bytes).  `used = total - available`
is Python integer subtraction, so it lives in `ℤ`;
`pct = 100 * used / total if total else 0.0`. -/
def _get_memory_usage (lines : List (String × ℕ)) : ℚ × String :=
  let total : ℕ := totalOf lines
  let available : ℕ := availOf lines
  let used : ℤ := (total : ℤ) - available
  let pct : ℚ := if total ≠ 0 then 100 * (used : ℚ) / total else 0
  (pct, format_bytes (used : ℚ) ++ " used / " ++ format_bytes (total : ℚ) ++
    " total (" ++ fmt0 pct ++ "%)")

/-- `cmd_sysinfo` (cli.py lines 85-89), parametrized by the hostname,
user and uptime readings; the result is the list of printed lines. -/
def cmd_sysinfo (hostname user : String) (uptime_seconds : ℚ) : List String :=
  [fmt_field "hostname" hostname,
   fmt_field "user" user,
   fmt_field "uptime" (_format_uptime uptime_seconds)]

/-- `cmd_inspect` (cli.py lines 92-107), parametrized by the hostname,
user and uptime readings, the two probe results `disk` and `mem`
(percentage and human text, as returned by `_get_disk_usage` and
`_get_memory_usage`), and the `--disk-warn`/`--mem-warn` integer
thresholds.  The result is the list of printed lines together with the
exit code `sys.exit(2 if (disk_bad or mem_bad) else 0)`. -/
def cmd_inspect (hostname user : String) (uptime_seconds : ℚ)
    (disk mem : ℚ × String) (disk_warn mem_warn : ℤ) : List String × ℕ :=
  let disk_bad : Prop := (disk_warn : ℚ) ≤ disk.1
  let mem_bad : Prop := (mem_warn : ℚ) ≤ mem.1
  ([fmt_field "hostname" hostname,
    fmt_field "user" user,
    fmt_field "uptime" (_format_uptime uptime_seconds),
    fmt_field "disk" disk.2,
    fmt_field "disk status" (if disk_bad then "WARNING" else "OK"),
    fmt_field "memory" mem.2,
    fmt_field "memory status" (if mem_bad then "WARNING" else "OK")],
   if disk_bad ∨ mem_bad then 2 else 0)

/-- The uptime format as the specification words it: decompose the floor
of the seconds value by integer division into days, hours, minutes and
seconds, and print `"<days> day(s), HH:MM:SS"` when `days > 0`, else
`"HH:MM:SS"`, two-digit zero-padded. -/
def uptime_spec (seconds : ℚ) : String :=
  let n : ℤ := ⌊seconds⌋
  let days : ℤ := n / 86400
  let hours : ℤ := n % 86400 / 3600
  let minutes : ℤ := n % 3600 / 60
  let secs : ℤ := n % 60
  if 0 < days then
    toString days ++ " day(s), " ++ pad2 hours ++ ":" ++ pad2 minutes ++ ":" ++ pad2 secs
  else
    pad2 hours ++ ":" ++ pad2 minutes ++ ":" ++ pad2 secs

/-- The components computed by `_format_uptime` agree with the plain
base-60/24 decomposition of `⌊seconds⌋`. -/
lemma uptime_components_eq (s : ℚ) :
    uptime_components s =
      (⌊s⌋ / 86400, ⌊s⌋ % 86400 / 3600, ⌊s⌋ % 3600 / 60, ⌊s⌋ % 60) := by
  have h86 : (0:ℚ) < 86400 := by norm_num
  have hks : ((⌊s / 86400⌋ : ℤ) : ℚ) ≤ s / 86400 := Int.floor_le _
  have hks2 : s / 86400 < ((⌊s / 86400⌋ : ℤ) : ℚ) + 1 := Int.lt_floor_add_one _
  have hs1 : ((⌊s / 86400⌋ : ℤ) : ℚ) * 86400 ≤ s := (le_div_iff₀ h86).mp hks
  have hs2 : s < (((⌊s / 86400⌋ : ℤ) : ℚ) + 1) * 86400 := (div_lt_iff₀ h86).mp hks2
  have hk1 : 86400 * ⌊s / 86400⌋ ≤ ⌊s⌋ := by
    rw [Int.le_floor]; push_cast; linarith
  have hk2 : ⌊s⌋ < 86400 * (⌊s / 86400⌋ + 1) := by
    rw [Int.floor_lt]; push_cast; linarith
  have hrem : ⌊s - 86400 * ((⌊s / 86400⌋ : ℤ) : ℚ)⌋ = ⌊s⌋ - 86400 * ⌊s / 86400⌋ := by
    rw [show (86400 : ℚ) * ((⌊s / 86400⌋ : ℤ) : ℚ) = ((86400 * ⌊s / 86400⌋ : ℤ) : ℚ) by
      push_cast; ring]
    exact Int.floor_sub_int s _
  simp only [uptime_components, hrem,
    Int.fdiv_eq_ediv _ (by norm_num : (0:ℤ) ≤ 3600),
    Int.fmod_eq_emod _ (by norm_num : (0:ℤ) ≤ 3600),
    Int.fdiv_eq_ediv _ (by norm_num : (0:ℤ) ≤ 60),
    Int.fmod_eq_emod _ (by norm_num : (0:ℤ) ≤ 60),
    Prod.mk.injEq]
  refine ⟨?_, ?_, ?_, ?_⟩ <;> omega

end Cli

namespace Cli

/-- C9: for every nonnegative seconds value, the components displayed by
`_format_uptime` reconstruct the floor of the input:
`days*86400 + hours*3600 + minutes*60 + secs = ⌊seconds⌋`, with
`0 ≤ hours < 24`, `0 ≤ minutes < 60`, `0 ≤ secs < 60`. -/
theorem C9_uptime_reconstruction (s : ℚ) (h : 0 ≤ s) :
    (uptime_components s).1 * 86400 + (uptime_components s).2.1 * 3600 +
        (uptime_components s).2.2.1 * 60 + (uptime_components s).2.2.2 = ⌊s⌋ ∧
      (0 ≤ (uptime_components s).2.1 ∧ (uptime_components s).2.1 < 24) ∧
      (0 ≤ (uptime_components s).2.2.1 ∧ (uptime_components s).2.2.1 < 60) ∧
      (0 ≤ (uptime_components s).2.2.2 ∧ (uptime_components s).2.2.2 < 60) := by
  have h0 : 0 ≤ ⌊s⌋ := Int.floor_nonneg.2 h
  rw [uptime_components_eq s]
  dsimp only
  refine ⟨?_, ⟨?_, ?_⟩, ⟨?_, ?_⟩, ⟨?_, ?_⟩⟩ <;> omega

/-- Witness for C9 at `seconds = 3661`. -/
theorem C9_witness :
    (0:ℚ) ≤ 3661 ∧
      ((uptime_components 3661).1 * 86400 + (uptime_components 3661).2.1 * 3600 +
          (uptime_components 3661).2.2.1 * 60 + (uptime_components 3661).2.2.2 =
            ⌊(3661:ℚ)⌋ ∧
        (0 ≤ (uptime_components 3661).2.1 ∧ (uptime_components 3661).2.1 < 24) ∧
        (0 ≤ (uptime_components 3661).2.2.1 ∧ (uptime_components 3661).2.2.1 < 60) ∧
        (0 ≤ (uptime_components 3661).2.2.2 ∧ (uptime_components 3661).2.2.2 < 60)) :=
  ⟨by norm_num, C9_uptime_reconstruction 3661 (by norm_num)⟩

/-- C5: for every nonnegative seconds value `_format_uptime` renders the
floor-division decomposition as `"<days> day(s), HH:MM:SS"` when
`days > 0` and `"HH:MM:SS"` otherwise (two-digit zero-padded), and in
particular `_format_uptime 0 = "00:00:00"`,
`_format_uptime 3661 = "01:01:01"`,
`_format_uptime 90000 = "1 day(s), 01:00:00"`. -/
theorem C5_format_uptime_spec :
    (∀ s : ℚ, 0 ≤ s → _format_uptime s = uptime_spec s) ∧
    _format_uptime 0 = "00:00:00" ∧
    _format_uptime 3661 = "01:01:01" ∧
    _format_uptime 90000 = "1 day(s), 01:00:00" := by
  have hgen : ∀ s : ℚ, 0 ≤ s → _format_uptime s = uptime_spec s := by
    intro s h
    have h0 : 0 ≤ ⌊s⌋ := Int.floor_nonneg.2 h
    simp only [_format_uptime, uptime_spec, uptime_components_eq s]
    by_cases hd : ⌊s⌋ / 86400 = 0
    · simp [hd]
    · rw [if_pos hd, if_pos (by omega)]
  have h1 : uptime_components (0:ℚ) = (0, 0, 0, 0) := by
    rw [uptime_components_eq 0, show (⌊(0:ℚ)⌋ : ℤ) = 0 by norm_num]
    decide
  have h2 : uptime_components (3661:ℚ) = (0, 1, 1, 1) := by
    rw [uptime_components_eq 3661, show (⌊(3661:ℚ)⌋ : ℤ) = 3661 by norm_num]
    decide
  have h3 : uptime_components (90000:ℚ) = (1, 1, 0, 0) := by
    rw [uptime_components_eq 90000, show (⌊(90000:ℚ)⌋ : ℤ) = 90000 by norm_num]
    decide
  refine ⟨hgen, ?_, ?_, ?_⟩
  · simp only [_format_uptime, h1]; decide
  · simp only [_format_uptime, h2]; decide
  · simp only [_format_uptime, h3]; decide

/-- Witness for C5 at `seconds = 90000`. -/
theorem C5_witness : (0:ℚ) ≤ 90000 ∧ _format_uptime 90000 = uptime_spec 90000 :=
  ⟨by norm_num, C5_format_uptime_spec.1 90000 (by norm_num)⟩

/-- The two possible disk status lines differ. -/
lemma disk_warning_line_ne :
    fmt_field "disk status" "WARNING" ≠ fmt_field "disk status" "OK" := by decide

/-- The two possible memory status lines differ. -/
lemma mem_warning_line_ne :
    fmt_field "memory status" "WARNING" ≠ fmt_field "memory status" "OK" := by decide

/-- C1: in the `inspect` output, the disk status line (index 4) reads
`WARNING` exactly when the disk percentage is `≥` the disk threshold and
`OK` exactly when it is strictly below, and likewise for the memory
status line (index 6); the boundary is inclusive. -/
theorem C1_inspect_status_lines (host user : String) (up : ℚ)
    (disk mem : ℚ × String) (dw mw : ℤ) :
    ((cmd_inspect host user up disk mem dw mw).1[4]? =
        some (fmt_field "disk status" "WARNING") ↔ (dw : ℚ) ≤ disk.1) ∧
    ((cmd_inspect host user up disk mem dw mw).1[4]? =
        some (fmt_field "disk status" "OK") ↔ disk.1 < (dw : ℚ)) ∧
    ((cmd_inspect host user up disk mem dw mw).1[6]? =
        some (fmt_field "memory status" "WARNING") ↔ (mw : ℚ) ≤ mem.1) ∧
    ((cmd_inspect host user up disk mem dw mw).1[6]? =
        some (fmt_field "memory status" "OK") ↔ mem.1 < (mw : ℚ)) := by
  simp only [cmd_inspect]
  refine ⟨?_, ?_, ?_, ?_⟩
  · by_cases h : (dw:ℚ) ≤ disk.1
    · simp [h]
    · simp [h, disk_warning_line_ne.symm]
  · by_cases h : (dw:ℚ) ≤ disk.1
    · simp [h, disk_warning_line_ne, not_lt.2 h]
    · simp [h, not_le.1 h]
  · by_cases h : (mw:ℚ) ≤ mem.1
    · simp [h]
    · simp [h, mem_warning_line_ne.symm]
  · by_cases h : (mw:ℚ) ≤ mem.1
    · simp [h, mem_warning_line_ne, not_lt.2 h]
    · simp [h, not_le.1 h]

/-- C2: `inspect` exits with code 2 exactly when disk or memory usage
meets or exceeds its threshold, with code 0 exactly when both are
strictly below, and the exit code is 0 exactly when both status lines
read `OK`. -/
theorem C2_inspect_exit_code (host user : String) (up : ℚ)
    (disk mem : ℚ × String) (dw mw : ℤ) :
    ((cmd_inspect host user up disk mem dw mw).2 = 2 ↔
      ((dw : ℚ) ≤ disk.1 ∨ (mw : ℚ) ≤ mem.1)) ∧
    ((cmd_inspect host user up disk mem dw mw).2 = 0 ↔
      (disk.1 < (dw : ℚ) ∧ mem.1 < (mw : ℚ))) ∧
    ((cmd_inspect host user up disk mem dw mw).2 = 0 ↔
      ((cmd_inspect host user up disk mem dw mw).1[4]? =
          some (fmt_field "disk status" "OK") ∧
       (cmd_inspect host user up disk mem dw mw).1[6]? =
          some (fmt_field "memory status" "OK"))) := by
  simp only [cmd_inspect]
  by_cases h1 : (dw:ℚ) ≤ disk.1
  · by_cases h2 : (mw:ℚ) ≤ mem.1
    · simp [h1, h2, disk_warning_line_ne, mem_warning_line_ne,
        not_lt.2 h1, not_lt.2 h2]
    · simp [h1, h2, disk_warning_line_ne, not_lt.2 h1, not_le.1 h2]
  · by_cases h2 : (mw:ℚ) ≤ mem.1
    · simp [h1, h2, mem_warning_line_ne, not_le.1 h1, not_lt.2 h2]
    · simp [h1, h2, not_le.1 h1, not_le.1 h2]

/-- C3: for both the disk and the memory computation, the percentage is
within `[0, 100]` whenever the total is positive (given the probe
invariant `used ≤ total`, respectively `available ≤ total`), and equals
`0` when the total is `0` — the division is guarded. -/
theorem C3_percent_bounds :
    (∀ used total : ℕ,
      (used ≤ total → total ≠ 0 →
        0 ≤ (_get_disk_usage used total).1 ∧ (_get_disk_usage used total).1 ≤ 100) ∧
      (total = 0 → (_get_disk_usage used total).1 = 0)) ∧
    (∀ lines : List (String × ℕ),
      (availOf lines ≤ totalOf lines → totalOf lines ≠ 0 →
        0 ≤ (_get_memory_usage lines).1 ∧ (_get_memory_usage lines).1 ≤ 100) ∧
      (totalOf lines = 0 → (_get_memory_usage lines).1 = 0)) := by
  constructor
  · intro used total
    constructor
    · intro hle h0
      have ht : (0:ℚ) < total := by exact_mod_cast Nat.pos_of_ne_zero h0
      have hu : (used:ℚ) ≤ total := by exact_mod_cast hle
      simp only [_get_disk_usage, if_pos h0]
      constructor
      · positivity
      · rw [div_le_iff₀ ht]; linarith
    · intro h0
      simp [_get_disk_usage, h0]
  · intro lines
    constructor
    · intro hle h0
      have ht : (0:ℚ) < (totalOf lines : ℚ) := by
        exact_mod_cast Nat.pos_of_ne_zero h0
      have ha : (availOf lines : ℚ) ≤ (totalOf lines : ℚ) := by exact_mod_cast hle
      have ha0 : (0:ℚ) ≤ (availOf lines : ℚ) := by positivity
      simp only [_get_memory_usage, if_pos h0]
      push_cast
      constructor
      · apply div_nonneg _ (le_of_lt ht); linarith
      · rw [div_le_iff₀ ht]; linarith
    · intro h0
      simp [_get_memory_usage, h0]

/-- Witness for C3: disk reading 50 of 100 bytes used; meminfo with
2048 bytes total and 512 available. -/
theorem C3_witness :
    (0 ≤ (_get_disk_usage 50 100).1 ∧ (_get_disk_usage 50 100).1 ≤ 100) ∧
    (0 ≤ (_get_memory_usage [("MemTotal", 2048), ("MemAvailable", 512)]).1 ∧
      (_get_memory_usage [("MemTotal", 2048), ("MemAvailable", 512)]).1 ≤ 100) :=
  ⟨(C3_percent_bounds.1 50 100).1 (by norm_num) (by norm_num),
   (C3_percent_bounds.2 [("MemTotal", 2048), ("MemAvailable", 512)]).1
     (by decide) (by decide)⟩

lemma fb_eval_B (n : ℚ) (h : n < 1024) : format_bytes n = fmt1 n ++ " B" := by
  simp only [format_bytes, format_bytes_go]
  rw [if_pos h, String.append_assoc]; rfl

lemma fb_eval_KiB (n : ℚ) (h1 : 1024 ≤ n) (h2 : n < 1024^2) :
    format_bytes n = fmt1 (n / 1024) ++ " KiB" := by
  have e1 : ¬ n < 1024 := not_lt.2 h1
  have e2 : n / 1024 < 1024 := by
    rw [div_lt_iff₀ (by norm_num : (0:ℚ) < 1024)]; nlinarith
  simp only [format_bytes, format_bytes_go]
  rw [if_neg e1, if_pos e2, String.append_assoc]; rfl

lemma fb_eval_MiB (n : ℚ) (h1 : 1024^2 ≤ n) (h2 : n < 1024^3) :
    format_bytes n = fmt1 (n / 1024^2) ++ " MiB" := by
  have e1 : ¬ n < 1024 := not_lt.2 (by nlinarith)
  have e2 : ¬ n / 1024 < 1024 := by
    rw [not_lt, le_div_iff₀ (by norm_num : (0:ℚ) < 1024)]; nlinarith
  have e3 : n / 1024 / 1024 < 1024 := by
    rw [div_div, div_lt_iff₀ (by norm_num : (0:ℚ) < 1024 * 1024)]; nlinarith
  have harg : n / 1024 / 1024 = n / 1024^2 := by rw [div_div]; norm_num
  simp only [format_bytes, format_bytes_go]
  rw [if_neg e1, if_neg e2, if_pos e3, harg, String.append_assoc]; rfl

lemma fb_eval_GiB (n : ℚ) (h1 : 1024^3 ≤ n) (h2 : n < 1024^4) :
    format_bytes n = fmt1 (n / 1024^3) ++ " GiB" := by
  have e1 : ¬ n < 1024 := not_lt.2 (by nlinarith)
  have e2 : ¬ n / 1024 < 1024 := by
    rw [not_lt, le_div_iff₀ (by norm_num : (0:ℚ) < 1024)]; nlinarith
  have e3 : ¬ n / 1024 / 1024 < 1024 := by
    rw [not_lt, div_div, le_div_iff₀ (by norm_num : (0:ℚ) < 1024 * 1024)]; nlinarith
  have e4 : n / 1024 / 1024 / 1024 < 1024 := by
    rw [div_div, div_div,
      div_lt_iff₀ (by norm_num : (0:ℚ) < 1024 * (1024 * 1024))]
    nlinarith
  have harg : n / 1024 / 1024 / 1024 = n / 1024^3 := by
    rw [div_div, div_div]; norm_num
  simp only [format_bytes, format_bytes_go]
  rw [if_neg e1, if_neg e2, if_neg e3, if_pos e4, harg, String.append_assoc]; rfl

lemma fb_eval_TiB (n : ℚ) (h1 : 1024^4 ≤ n) (h2 : n < 1024^5) :
    format_bytes n = fmt1 (n / 1024^4) ++ " TiB" := by
  have e1 : ¬ n < 1024 := not_lt.2 (by nlinarith)
  have e2 : ¬ n / 1024 < 1024 := by
    rw [not_lt, le_div_iff₀ (by norm_num : (0:ℚ) < 1024)]; nlinarith
  have e3 : ¬ n / 1024 / 1024 < 1024 := by
    rw [not_lt, div_div, le_div_iff₀ (by norm_num : (0:ℚ) < 1024 * 1024)]; nlinarith
  have e4 : ¬ n / 1024 / 1024 / 1024 < 1024 := by
    rw [not_lt, div_div, div_div,
      le_div_iff₀ (by norm_num : (0:ℚ) < 1024 * (1024 * 1024))]
    nlinarith
  have e5 : n / 1024 / 1024 / 1024 / 1024 < 1024 := by
    rw [div_div, div_div, div_div,
      div_lt_iff₀ (by norm_num : (0:ℚ) < 1024 * (1024 * (1024 * 1024)))]
    nlinarith
  have harg : n / 1024 / 1024 / 1024 / 1024 = n / 1024^4 := by
    rw [div_div, div_div, div_div]; norm_num
  simp only [format_bytes, format_bytes_go]
  rw [if_neg e1, if_neg e2, if_neg e3, if_neg e4, if_pos e5, harg,
    String.append_assoc]
  rfl

lemma fb_eval_PiB (n : ℚ) (h1 : 1024^5 ≤ n) :
    format_bytes n = fmt1 (n / 1024^5) ++ " PiB" := by
  have e1 : ¬ n < 1024 := not_lt.2 (by nlinarith)
  have e2 : ¬ n / 1024 < 1024 := by
    rw [not_lt, le_div_iff₀ (by norm_num : (0:ℚ) < 1024)]; nlinarith
  have e3 : ¬ n / 1024 / 1024 < 1024 := by
    rw [not_lt, div_div, le_div_iff₀ (by norm_num : (0:ℚ) < 1024 * 1024)]; nlinarith
  have e4 : ¬ n / 1024 / 1024 / 1024 < 1024 := by
    rw [not_lt, div_div, div_div,
      le_div_iff₀ (by norm_num : (0:ℚ) < 1024 * (1024 * 1024))]
    nlinarith
  have e5 : ¬ n / 1024 / 1024 / 1024 / 1024 < 1024 := by
    rw [not_lt, div_div, div_div, div_div,
      le_div_iff₀ (by norm_num : (0:ℚ) < 1024 * (1024 * (1024 * 1024)))]
    nlinarith
  have harg : n / 1024 / 1024 / 1024 / 1024 / 1024 = n / 1024^5 := by
    rw [div_div, div_div, div_div, div_div]; norm_num
  simp only [format_bytes, format_bytes_go]
  rw [if_neg e1, if_neg e2, if_neg e3, if_neg e4, if_neg e5, harg]

/-- Evaluation of `fmt1` once the rounded value is known. -/
lemma fmt1_eval (q : ℚ) (k : ℤ) (h : round_half_even (10 * q) = k) :
    fmt1 q = toString (k / 10) ++ "." ++ toString (k % 10) := by
  simp only [fmt1, h]

/-- C4: `format_bytes` selects the first unit `B, KiB, MiB, GiB, TiB`
under which the successively divided value drops below 1024, printing it
with one decimal, and falls through to `PiB` for values at or beyond
`1024^5`; the four sample points of the specification evaluate as
stated. -/
theorem C4_format_bytes :
    (∀ n : ℚ, 0 ≤ n →
      (n < 1024 → format_bytes n = fmt1 n ++ " B") ∧
      (1024 ≤ n → n < 1024^2 → format_bytes n = fmt1 (n / 1024) ++ " KiB") ∧
      (1024^2 ≤ n → n < 1024^3 → format_bytes n = fmt1 (n / 1024^2) ++ " MiB") ∧
      (1024^3 ≤ n → n < 1024^4 → format_bytes n = fmt1 (n / 1024^3) ++ " GiB") ∧
      (1024^4 ≤ n → n < 1024^5 → format_bytes n = fmt1 (n / 1024^4) ++ " TiB") ∧
      (1024^5 ≤ n → format_bytes n = fmt1 (n / 1024^5) ++ " PiB")) ∧
    format_bytes 0 = "0.0 B" ∧
    format_bytes 1024 = "1.0 KiB" ∧
    format_bytes 1536 = "1.5 KiB" ∧
    format_bytes (1024^4) = "1.0 TiB" := by
  refine ⟨fun n _ => ⟨fb_eval_B n, fun h1 h2 => fb_eval_KiB n h1 h2,
      fun h1 h2 => fb_eval_MiB n h1 h2, fun h1 h2 => fb_eval_GiB n h1 h2,
      fun h1 h2 => fb_eval_TiB n h1 h2, fun h1 => fb_eval_PiB n h1⟩,
    ?_, ?_, ?_, ?_⟩
  · rw [fb_eval_B 0 (by norm_num),
      fmt1_eval 0 0 (by norm_num [round_half_even])]
    decide
  · rw [fb_eval_KiB 1024 (by norm_num) (by norm_num),
      show (1024:ℚ)/1024 = 1 by norm_num,
      fmt1_eval 1 10 (by norm_num [round_half_even])]
    decide
  · rw [fb_eval_KiB 1536 (by norm_num) (by norm_num),
      show (1536:ℚ)/1024 = 3/2 by norm_num,
      fmt1_eval (3/2) 15 (by norm_num [round_half_even])]
    decide
  · rw [fb_eval_TiB (1024^4) (by norm_num) (by norm_num),
      show (1024:ℚ)^4/1024^4 = 1 by norm_num,
      fmt1_eval 1 10 (by norm_num [round_half_even])]
    decide

/-- Witness for C4 at `n = 1536`. -/
theorem C4_witness :
    (0:ℚ) ≤ 1536 ∧ format_bytes 1536 = fmt1 (1536 / 1024) ++ " KiB" :=
  ⟨by norm_num,
   (C4_format_bytes.1 1536 (by norm_num)).2.1 (by norm_num) (by norm_num)⟩

/-- C6 counterexample: the label `"memory status"` has 13 characters.
`fmt_field` does not truncate it to 10 characters, so the output is not
the two spaces, the 10-character truncation, a space and the value that
the claim predicts. -/
theorem C6_counterexample :
    fmt_field "memory status" "OK" = "  memory status OK" ∧
    fmt_field "memory status" "OK" ≠ "  " ++ "memory sta" ++ " " ++ "OK" := by
  decide

/-- C6 (amended): `fmt_field` yields two spaces, the label padded (but
never truncated) to at least 10 characters, one space, then the value;
for labels of at most 10 characters the value therefore begins after
exactly 13 characters. -/
theorem C6_fmt_field_layout (label value : String) :
    (fmt_field label value).data =
      [' ', ' '] ++ label.data ++ List.replicate (10 - label.length) ' ' ++
        [' '] ++ value.data ∧
    (label.length ≤ 10 →
      (fmt_field label value).length = 13 + value.length ∧
      (fmt_field label value).data.drop 13 = value.data) := by
  have hdata : (fmt_field label value).data =
      [' ', ' '] ++ label.data ++ List.replicate (10 - label.length) ' ' ++
        [' '] ++ value.data := by
    simp [fmt_field, ljust, LABEL_WIDTH, String.data_append,
      show ("  ":String).data = [' ', ' '] from rfl,
      show (" ":String).data = [' '] from rfl,
      show ∀ cs : List Char, (String.mk cs).data = cs from fun _ => rfl,
      List.append_assoc]
  refine ⟨hdata, fun hlab => ⟨?_, ?_⟩⟩
  · rw [show (fmt_field label value).length = (fmt_field label value).data.length
        from rfl, hdata]
    simp only [List.length_append, List.length_replicate, List.length_cons,
      List.length_nil,
      show label.data.length = label.length from rfl,
      show value.data.length = value.length from rfl]
    omega
  · rw [hdata,
      show (13:ℕ) =
        ([' ', ' '] ++ label.data ++ List.replicate (10 - label.length) ' ' ++
          [' ']).length by
        simp only [List.length_append, List.length_replicate, List.length_cons,
          List.length_nil, show label.data.length = label.length from rfl]
        omega]
    exact List.drop_left _ _

/-- Witness for the amended C6 at label `"disk"`, value `"42%"`. -/
theorem C6_witness :
    "disk".length ≤ 10 ∧
      ((fmt_field "disk" "42%").length = 13 + "42%".length ∧
       (fmt_field "disk" "42%").data.drop 13 = "42%".data) :=
  ⟨by decide, (C6_fmt_field_layout "disk" "42%").2 (by decide)⟩

/-- C7: the memory probe computes `used = total - available`, preferring
the `MemAvailable` entry and falling back to `MemFree` (then 0), and —
under the probe invariant `available ≤ total` — produces exactly the
same percentage and human text as the disk probe would on the readings
`(total - available, total)`. -/
theorem C7_memory_usage (lines : List (String × ℕ)) :
    (availOf lines ≤ totalOf lines →
      _get_memory_usage lines =
        _get_disk_usage (totalOf lines - availOf lines) (totalOf lines)) ∧
    (∀ a : ℕ, lines.lookup "MemAvailable" = some a → availOf lines = a) ∧
    (lines.lookup "MemAvailable" = none →
      availOf lines = (lines.lookup "MemFree").getD 0) := by
  refine ⟨fun h => ?_, fun a ha => by simp [availOf, ha],
    fun hn => by simp [availOf, hn]⟩
  simp only [_get_memory_usage, _get_disk_usage]
  push_cast [Nat.cast_sub h]
  rfl

/-- Witness for C7 on a meminfo dictionary holding both keys. -/
theorem C7_witness :
    _get_memory_usage [("MemTotal", 2048), ("MemAvailable", 512)] =
      _get_disk_usage
        (totalOf [("MemTotal", 2048), ("MemAvailable", 512)] -
          availOf [("MemTotal", 2048), ("MemAvailable", 512)])
        (totalOf [("MemTotal", 2048), ("MemAvailable", 512)]) :=
  (C7_memory_usage [("MemTotal", 2048), ("MemAvailable", 512)]).1 (by decide)

/-- C10: with neither `MemAvailable` nor `MemFree` present, `available`
defaults to 0, `used` equals `total`, and for positive totals the
percentage is exactly 100. -/
theorem C10_missing_keys (lines : List (String × ℕ))
    (h1 : lines.lookup "MemAvailable" = none)
    (h2 : lines.lookup "MemFree" = none) :
    availOf lines = 0 ∧
    (totalOf lines : ℤ) - (availOf lines : ℤ) = (totalOf lines : ℤ) ∧
    (0 < totalOf lines → (_get_memory_usage lines).1 = 100) := by
  have ha : availOf lines = 0 := by simp [availOf, h1, h2]
  refine ⟨ha, by rw [ha]; simp, fun ht => ?_⟩
  have h0 : totalOf lines ≠ 0 := by omega
  have htq : (totalOf lines : ℚ) ≠ 0 := by exact_mod_cast h0
  simp only [_get_memory_usage, if_pos h0, ha]
  push_cast
  rw [sub_zero, mul_div_assoc, div_self htq, mul_one]

/-- Witness for C10 on a meminfo dictionary holding only `MemTotal`. -/
theorem C10_witness :
    availOf [("MemTotal", 4096)] = 0 ∧
    (totalOf [("MemTotal", 4096)] : ℤ) - (availOf [("MemTotal", 4096)] : ℤ) =
      (totalOf [("MemTotal", 4096)] : ℤ) ∧
    (_get_memory_usage [("MemTotal", 4096)]).1 = 100 :=
  have h := C10_missing_keys [("MemTotal", 4096)] (by decide) (by decide)
  ⟨h.1, h.2.1, h.2.2 (by decide)⟩

/-- Two strings differing at some character position differ. -/
lemma ne_of_data_getElem (s t : String) (i : ℕ) (h : s.data[i]? ≠ t.data[i]?) :
    s ≠ t :=
  fun he => h (by rw [he])

/-- The characters of a `fmt_field` line: the fixed front part followed by
the value. -/
lemma fmt_field_data (label value : String) :
    (fmt_field label value).data =
      ("  " ++ ljust LABEL_WIDTH label ++ " ").data ++ value.data := by
  simp only [fmt_field, String.data_append]

/-- The fixed front part of a `fmt_field` line is longer than 2 characters. -/
lemma fmt_field_front_len (l : String) :
    2 < ("  " ++ ljust LABEL_WIDTH l ++ " ").data.length := by
  simp [ljust, String.data_append,
    show ("  ":String).data = [' ', ' '] from rfl,
    show (" ":String).data = [' '] from rfl,
    show ∀ cs : List Char, (String.mk cs).data = cs from fun _ => rfl]

/-- `fmt_field` lines whose labels start with different characters
differ, whatever the values are. -/
lemma fmt_field_ne (l1 l2 v1 v2 : String) (c1 c2 : Char) (hc : c1 ≠ c2)
    (h1 : ("  " ++ ljust LABEL_WIDTH l1 ++ " ").data[2]? = some c1)
    (h2 : ("  " ++ ljust LABEL_WIDTH l2 ++ " ").data[2]? = some c2) :
    fmt_field l1 v1 ≠ fmt_field l2 v2 := by
  apply ne_of_data_getElem _ _ 2
  rw [fmt_field_data, fmt_field_data,
    List.getElem?_append_left (fmt_field_front_len l1),
    List.getElem?_append_left (fmt_field_front_len l2), h1, h2]
  simp [hc]

/-- C8: `sysinfo` prints exactly three lines, each produced by the
fixed-width label formatter with a label of at most 10 characters, and
none of them is a disk or memory status line. -/
theorem C8_sysinfo_lines (host user : String) (up : ℚ) :
    (cmd_sysinfo host user up).length = 3 ∧
    (∀ line ∈ cmd_sysinfo host user up,
      ∃ lab val, lab.length ≤ 10 ∧ line = fmt_field lab val) ∧
    (∀ line ∈ cmd_sysinfo host user up, ∀ v : String,
      line ≠ fmt_field "disk status" v ∧ line ≠ fmt_field "memory status" v) := by
  refine ⟨rfl, ?_, ?_⟩
  · intro line hline
    simp only [cmd_sysinfo, List.mem_cons, List.not_mem_nil, or_false] at hline
    rcases hline with h | h | h
    · exact ⟨"hostname", host, by decide, h⟩
    · exact ⟨"user", user, by decide, h⟩
    · exact ⟨"uptime", _format_uptime up, by decide, h⟩
  · intro line hline v
    simp only [cmd_sysinfo, List.mem_cons, List.not_mem_nil, or_false] at hline
    rcases hline with h | h | h
    · subst h
      exact ⟨fmt_field_ne "hostname" "disk status" host v 'h' 'd'
          (by decide) (by decide) (by decide),
        fmt_field_ne "hostname" "memory status" host v 'h' 'm'
          (by decide) (by decide) (by decide)⟩
    · subst h
      exact ⟨fmt_field_ne "user" "disk status" user v 'u' 'd'
          (by decide) (by decide) (by decide),
        fmt_field_ne "user" "memory status" user v 'u' 'm'
          (by decide) (by decide) (by decide)⟩
    · subst h
      exact ⟨fmt_field_ne "uptime" "disk status" (_format_uptime up) v 'u' 'd'
          (by decide) (by decide) (by decide),
        fmt_field_ne "uptime" "memory status" (_format_uptime up) v 'u' 'm'
          (by decide) (by decide) (by decide)⟩

/-- Witness for C8 at concrete probe readings. -/
theorem C8_witness :
    (cmd_sysinfo "nyx" "root" 0).length = 3 ∧
      fmt_field "hostname" "nyx" ≠ fmt_field "disk status" "WARNING" :=
  ⟨(C8_sysinfo_lines "nyx" "root" 0).1,
   ((C8_sysinfo_lines "nyx" "root" 0).2.2 (fmt_field "hostname" "nyx")
      (by simp [cmd_sysinfo]) "WARNING").1⟩

end Cli
